import Mathlib

/-
Verification of the go-graphkb ingestion client, server CLI glue and web
query client against their specification.

The development shallowly embeds the relevant functions of
  src/internal/client/transaction.go   (withRetryOnTooManyRequests, Transaction.Commit)
  src/unnamed/part_000                 (listen, queryFunc)
  src/unnamed/part_001                 (postQuery)
as executable Lean definitions and proves or refutes the specified
properties about them.  Parts of the repository that the claims depend on
but whose sources are not available (the knowledge.Graph type, the differ
GenerateGraphUpdatesBulk, utils.ChunkSlice, the worker pool) are modelled
from the specification text and are marked as such in their doc comments.
-/

/-- Error kinds from the specification, section 7 (Overload, transient
network, parse, storage, and so on).  The retry helper in
src/internal/client/transaction.go receives an opaque Go error value; we
keep the kind so that theorems can distinguish Overload and network errors
from the rest.  Only a representative subset of the kinds is needed. -/
inductive ErrKind
  | overload
  | network
  | parse
  | storage
deriving DecidableEq

/-- Embeds the backoff computation of withRetryOnTooManyRequests
(src/internal/client/transaction.go line 57):

  backoffTime := time.Duration(int(math.Pow(1.01, float64(trials)))*15) * time.Second

expressed in whole seconds.  The Go code truncates the float64 power to an
int BEFORE multiplying by 15; for every trials < 70 the value of
1.01 ^ trials lies strictly between 1 and 2 (both as a real number and as
the float64 computed by math.Pow, whose rounding error is many orders of
magnitude below the distance to the integers 1 and 2), so the truncation
agrees exactly with Nat division 101 ^ trials / 100 ^ trials.  Commit
always calls the helper with maxRetries = 10, so trials stays below 10. -/
def backoffSeconds (trials : Nat) : Nat :=
  101 ^ trials / 100 ^ trials * 15

/-- Observable outcome of a run of withRetryOnTooManyRequests: how many
times the request function was called, the backoff sleeps performed (in
seconds, in order), and the returned value. -/
structure RetryOutcome where
  calls : Nat
  sleeps : List Nat
  result : Except String Unit

/-- Loop body of withRetryOnTooManyRequests
(src/internal/client/transaction.go lines 52-68).  The request function fn
is modelled as a function of the 0-based call number (the Go closure may
observe its own state across calls); none means success.  The Go loop is:

  trials := 0
  for:
    err := fn()
    if err != nil: sleep(backoff(trials)) else: return nil
    trials++
    if trials == maxRetries: return abort error

The loop runs at most maxRetries iterations when started from trials = 0
and maxRetries > 0; fuel bounds the iterations and none models the
divergence that the Go code exhibits when maxRetries = 0 under persistent
failure (the equality check is then never reached from below). -/
def withRetryGo (fn : Nat → Option ErrKind) (maxRetries : Nat) :
    Nat → Nat → Nat → List Nat → Option RetryOutcome
  | 0, _, _, _ => none
  | fuel + 1, trials, calls, sleeps =>
    match fn calls with
    | none => some ⟨calls + 1, sleeps, Except.ok ()⟩
    | some _ =>
      if trials + 1 = maxRetries then
        some ⟨calls + 1, sleeps ++ [backoffSeconds trials],
              Except.error "Too many retries... Aborting"⟩
      else
        withRetryGo fn maxRetries fuel (trials + 1) (calls + 1)
          (sleeps ++ [backoffSeconds trials])

/-- withRetryOnTooManyRequests (src/internal/client/transaction.go lines
52-68) started from trials = 0; maxRetries + 1 fuel is enough for every
terminating run of the Go loop. -/
def withRetryOnTooManyRequests (fn : Nat → Option ErrKind) (maxRetries : Nat) :
    Option RetryOutcome :=
  withRetryGo fn maxRetries (maxRetries + 1) 0 0 []

/-- Modelled from the spec: an Asset is an opaque key string plus an
AssetType name; identity is the pair (type, key).  The knowledge.Graph
sources are not part of src/. -/
structure Asset where
  type : String
  key : String
deriving DecidableEq

/-- Modelled from the spec: a Relation is a directed typed edge between
two assets. -/
structure Relation where
  fromAsset : Asset
  type : String
  toAsset : Asset
deriving DecidableEq

/-- Modelled from the spec: the in-memory knowledge.Graph is a set of
assets and a set of relations; we use lists as the executable carrier. -/
structure Graph where
  assets : List Asset
  relations : List Relation
deriving DecidableEq

/-- Modelled from the spec: knowledge.NewGraph() builds a fresh empty
graph. -/
def NewGraph : Graph :=
  ⟨[], []⟩

/-- Modelled from the spec: ExtractSchema returns the set of distinct
(from_type, rel_type, to_type) triples observed in the graph. -/
def Graph.ExtractSchema (g : Graph) : List (String × String × String) :=
  (g.relations.map (fun r => (r.fromAsset.type, r.type, r.toAsset.type))).dedup

/-- Modelled from the spec: the Bulk produced by the differ, four lists of
upserts and removals. -/
structure Bulk where
  assetUpserts : List Asset
  assetRemovals : List Asset
  relationUpserts : List Relation
  relationRemovals : List Relation
deriving DecidableEq

/-- Modelled from the spec: knowledge.GenerateGraphUpdatesBulk diffs the
new graph against the current one by identity:
asset_upserts = new.assets minus current.assets,
asset_removals = current.assets minus new.assets, and the analogous
differences for relations. -/
def GenerateGraphUpdatesBulk (current new : Graph) : Bulk where
  assetUpserts := new.assets.filter (fun a => !current.assets.contains a)
  assetRemovals := current.assets.filter (fun a => !new.assets.contains a)
  relationUpserts := new.relations.filter (fun r => !current.relations.contains r)
  relationRemovals := current.relations.filter (fun r => !new.relations.contains r)

/-- Modelled from the spec: utils.ChunkSlice partitions a list into
consecutive chunks of at most n elements (loop body, bounded by the input
length as fuel). -/
def chunkSliceGo (n : Nat) : Nat → List α → List (List α)
  | 0, _ => []
  | _, [] => []
  | fuel + 1, xs => xs.take n :: chunkSliceGo n fuel (xs.drop n)

/-- Modelled from the spec: utils.ChunkSlice with the input length as
fuel; n is at least 1 in every call made by Commit. -/
def chunkSlice (n : Nat) (xs : List α) : List (List α) :=
  chunkSliceGo n xs.length xs

/-- A Transaction as in src/internal/client/transaction.go lines 18-35.
The GraphClient, the binder and the mutex are not needed by the committed
claims: the client is replaced by the CommitEnv oracle below, and bind or
relate never run during Commit. -/
structure Transaction where
  currentGraph : Graph
  newGraph : Graph
  parallelization : Nat
  chunkSize : Nat
deriving DecidableEq

/-- The four chunk categories dispatched by Commit. -/
inductive ChunkKind
  | relationRemoval
  | assetUpsert
  | assetRemoval
  | relationUpsert
deriving DecidableEq

/-- Program-order events of a run of Commit: the schema upload, the Bulk
computation, the dispatch of a chunk of a given category (with its index
in its category) to the worker pool, and the draining of all futures
collected so far. -/
inductive CommitEvent
  | updateSchema
  | computeBulk
  | dispatch (kind : ChunkKind) (idx : Nat)
  | drain
deriving DecidableEq

/-- Oracle for the GraphClient calls made by Commit (the GraphClient
sources are not under src/).  updateSchemaErr is the outcome of
client.UpdateSchema on the extracted schema; the four chunk fields give,
per chunk index within a category, the final outcome of
withRetryOnTooManyRequests around the corresponding streaming call
(none = the chunk was applied). -/
structure CommitEnv where
  updateSchemaErr : List (String × String × String) → Option String
  deleteRelationsErr : Nat → Option String
  insertAssetsErr : Nat → Option String
  deleteAssetsErr : Nat → Option String
  insertRelationsErr : Nat → Option String

/-- Number of relation-removal chunks dispatched by Commit
(src/internal/client/transaction.go line 96). -/
def nRelationRemovalChunks (cgt : Transaction) : Nat :=
  (chunkSlice cgt.chunkSize
    (GenerateGraphUpdatesBulk cgt.currentGraph cgt.newGraph).relationRemovals).length

/-- Number of relation-upsert chunks (line 97). -/
def nRelationUpsertChunks (cgt : Transaction) : Nat :=
  (chunkSlice cgt.chunkSize
    (GenerateGraphUpdatesBulk cgt.currentGraph cgt.newGraph).relationUpserts).length

/-- Number of asset-removal chunks (line 98). -/
def nAssetRemovalChunks (cgt : Transaction) : Nat :=
  (chunkSlice cgt.chunkSize
    (GenerateGraphUpdatesBulk cgt.currentGraph cgt.newGraph).assetRemovals).length

/-- Number of asset-upsert chunks (line 99). -/
def nAssetUpsertChunks (cgt : Transaction) : Nat :=
  (chunkSlice cgt.chunkSize
    (GenerateGraphUpdatesBulk cgt.currentGraph cgt.newGraph).assetUpserts).length

/-- Dispatch events of phase A in program order: all relation-removal
chunks (lines 101-114), then all asset-upsert chunks (lines 116-129). -/
def phaseAEvents (nRR nAU : Nat) : List CommitEvent :=
  (List.range nRR).map (CommitEvent.dispatch ChunkKind.relationRemoval) ++
    (List.range nAU).map (CommitEvent.dispatch ChunkKind.assetUpsert)

/-- Dispatch events of phase B in program order: all asset-removal chunks
(lines 141-154), then all relation-upsert chunks (lines 156-169). -/
def phaseBEvents (nAR nRU : Nat) : List CommitEvent :=
  (List.range nAR).map (CommitEvent.dispatch ChunkKind.assetRemoval) ++
    (List.range nRU).map (CommitEvent.dispatch ChunkKind.relationUpsert)

/-- Trace of Commit up to and including the first drain barrier (lines
71-137): schema upload, Bulk computation, phase A dispatches, drain. -/
def commitTraceA (cgt : Transaction) : List CommitEvent :=
  [CommitEvent.updateSchema, CommitEvent.computeBulk] ++
    phaseAEvents (nRelationRemovalChunks cgt) (nAssetUpsertChunks cgt) ++
    [CommitEvent.drain]

/-- Trace of the phase B part of Commit (lines 139-177): phase B
dispatches, then the second drain. -/
def commitTraceB (cgt : Transaction) : List CommitEvent :=
  phaseBEvents (nAssetRemovalChunks cgt) (nRelationUpsertChunks cgt) ++
    [CommitEvent.drain]

/-- Errors observed when draining the phase A futures, in the order the
futures were collected (relation-removal chunks then asset-upsert chunks);
the drain loop at lines 131-137 returns the first one.  The Go messages
interpolate the chunk data with percent-v; the model keeps the fixed
message prefix and the underlying error. -/
def phaseAErrors (cgt : Transaction) (env : CommitEnv) : List String :=
  (List.range (nRelationRemovalChunks cgt)).filterMap
      (fun i => (env.deleteRelationsErr i).map
        (fun e => "Unable to remove the relations: " ++ e)) ++
    (List.range (nAssetUpsertChunks cgt)).filterMap
      (fun i => (env.insertAssetsErr i).map
        (fun e => "Unable to upsert the asset: " ++ e))

/-- Errors observed when draining the phase B futures (asset-removal
chunks then relation-upsert chunks); the drain loop at lines 171-177
returns the first one. -/
def phaseBErrors (cgt : Transaction) (env : CommitEnv) : List String :=
  (List.range (nAssetRemovalChunks cgt)).filterMap
      (fun i => (env.deleteAssetsErr i).map
        (fun e => "Unable to remove the asset: " ++ e)) ++
    (List.range (nRelationUpsertChunks cgt)).filterMap
      (fun i => (env.insertRelationsErr i).map
        (fun e => "Unable to upsert the relation: " ++ e))

/-- Transaction.Commit (src/internal/client/transaction.go lines 71-184)
as a state transformer returning the result, the updated transaction and
the program-order event trace.  Control flow from the source: extract the
schema of the new graph and upload it, aborting on failure; compute the
Bulk; dispatch all phase A chunks and drain them, returning the first
chunk error; dispatch all phase B chunks and drain them likewise; on
success hand the new graph to the caller and replace the internal new
graph by a fresh empty one.  The progress bar and the worker pool
plumbing carry no information observed by the claims and are elided; the
pool is reflected in the dispatch/drain event structure. -/
def Transaction.Commit (cgt : Transaction) (env : CommitEnv) :
    Except String Graph × Transaction × List CommitEvent :=
  match env.updateSchemaErr cgt.newGraph.ExtractSchema with
  | some e =>
    (Except.error ("Unable to update the schema of the graph: " ++ e), cgt,
      [CommitEvent.updateSchema])
  | none =>
    match phaseAErrors cgt env with
    | e :: _ => (Except.error e, cgt, commitTraceA cgt)
    | [] =>
      match phaseBErrors cgt env with
      | e :: _ => (Except.error e, cgt, commitTraceA cgt ++ commitTraceB cgt)
      | [] =>
        (Except.ok cgt.newGraph, { cgt with newGraph := NewGraph },
          commitTraceA cgt ++ commitTraceB cgt)

/-- Embeds the concurrency computation of the listen command
(src/unnamed/part_000 lines 163-169): the value read from the
configuration (0 when the key is unset) is replaced by 32 when it is 0,
and the result is handed to server.StartServer as the query gate
capacity. -/
def listenConcurrency (concurrency : Int) : Int :=
  if concurrency = 0 then 32 else concurrency

/-- Query statistics as in the spec section 4.4: parsing and execution
times in nanoseconds (Go time.Duration values are integer nanosecond
counts). -/
structure QueryStatistics where
  parsing : Nat
  execution : Nat
deriving DecidableEq

/-- Go time.Duration.Microseconds(): the duration in whole microseconds,
truncated (integer division of the nanosecond count by 1000). -/
def durationMicroseconds (ns : Nat) : Nat :=
  ns / 1000

/-- Observable output of the query CLI command: the deadline installed on
the context (seconds), the rows printed, the final results counter and
the millisecond figure of the summary line. -/
structure QueryOutput where
  timeoutSeconds : Nat
  printedRows : List (List String)
  resultsCount : Nat
  summaryMs : ℚ

/-- queryFunc (src/unnamed/part_000 lines 186-217).  The cursor rows are
taken as an input list (the querier sources are not under src/), each row
already rendered to strings as the percent-v loop does.  The code installs
a 30 second context deadline, prints every row while incrementing
resultsCount, and prints resultsCount together with
float64(totalTime.Microseconds())/1000.0 where
totalTime = Statistics.Parsing + Statistics.Execution; the division is
modelled exactly over the rationals (the printed six-decimal rendering of
the float64 quotient agrees with it for all realistic magnitudes). -/
def queryFunc (rows : List (List String)) (stats : QueryStatistics) : QueryOutput where
  timeoutSeconds := 30
  printedRows := rows
  resultsCount := rows.foldl (fun n _ => n + 1) 0
  summaryMs :=
    (durationMicroseconds (stats.parsing + stats.execution) : ℚ) / 1000

/-- The JSON body sent by postQuery (src/unnamed/part_001 lines 52-55). -/
structure PostQueryBody where
  q : String
  include_data_source : Bool
deriving DecidableEq

/-- postQuery always posts the query with include_data_source set to
true. -/
def postQueryBody (query : String) : PostQueryBody :=
  ⟨query, true⟩

/-- The validateStatus predicate passed to axios by postQuery
(src/unnamed/part_001 line 55): s === 200 or s === 500 or s === 400. -/
def postQueryValidateStatus (status : Nat) : Bool :=
  status == 200 || status == 500 || status == 400

/-- postQuery (src/unnamed/part_001 lines 51-61) as a function of the
response status and body.  When validateStatus rejects the status, axios
itself rejects the promise (modelled by a generic transport error); when
the status is not 200 the function throws the template string built from
the response body and the status; otherwise it returns the decoded body
(decoding is modelled as the identity on the body). -/
def postQuery (status : Nat) (body : String) : Except String String :=
  if postQueryValidateStatus status then
    if status = 200 then
      Except.ok body
    else
      Except.error (body ++ (" (" ++ (toString status ++ ")")))
  else
    Except.error "axios: request failed"

/-- Sample asset for concrete witnesses. -/
def sampleAsset : Asset :=
  ⟨"Server", "a"⟩

/-- Sample graph with one asset and no relations. -/
def sampleGraph : Graph :=
  ⟨[sampleAsset], []⟩

/-- Sample transaction: empty current graph, one new asset, chunk size
1000 as in the repository defaults. -/
def sampleTx : Transaction :=
  ⟨NewGraph, sampleGraph, 4, 1000⟩

/-- Oracle under which every client call succeeds. -/
def envOk : CommitEnv :=
  ⟨fun _ => none, fun _ => none, fun _ => none, fun _ => none, fun _ => none⟩

/-- Oracle under which the schema upload fails. -/
def envSchemaFail : CommitEnv :=
  ⟨fun _ => some "boom", fun _ => none, fun _ => none, fun _ => none,
    fun _ => none⟩

/-- Oracle under which every asset-upsert chunk fails after its retries
while everything else succeeds. -/
def envChunkFail : CommitEnv :=
  ⟨fun _ => none, fun _ => none, fun _ => some "too many requests",
    fun _ => none, fun _ => none⟩

/-- Under a persistently failing request function the retry loop performs
exactly maxRetries - trials further calls, sleeping once per failure, and
then returns the abort error. -/
theorem withRetryGo_persistent (fn : Nat → Option ErrKind) (m : Nat)
    (h : ∀ k, fn k ≠ none) :
    ∀ fuel trials calls sleeps, trials < m → m ≤ trials + fuel →
      withRetryGo fn m fuel trials calls sleeps =
        some ⟨calls + (m - trials),
              sleeps ++ (List.range' trials (m - trials)).map backoffSeconds,
              Except.error "Too many retries... Aborting"⟩ := by
  intro fuel
  induction fuel with
  | zero => intro trials calls sleeps h1 h2; omega
  | succ fuel ih =>
    intro trials calls sleeps h1 h2
    rcases hf : fn calls with _ | e
    · exact absurd hf (h calls)
    · by_cases ht : trials + 1 = m
      · have hd : m - trials = 1 := by omega
        simp only [withRetryGo, hf, if_pos ht, hd]
        simp [List.range'_succ]
      · have hlt : trials + 1 < m := by omega
        have hfuel : m ≤ trials + 1 + fuel := by omega
        have hrec := ih (trials + 1) (calls + 1)
          (sleeps ++ [backoffSeconds trials]) hlt hfuel
        simp only [withRetryGo, hf, if_neg ht, hrec]
        have hd : m - trials = (m - (trials + 1)) + 1 := by omega
        rw [hd, List.range'_succ]
        simp only [Option.some.injEq, RetryOutcome.mk.injEq, List.map_cons,
          List.append_assoc, List.singleton_append, and_true, true_and]
        omega

/-- C2 (amended): under a persistently failing request function,
withRetryOnTooManyRequests with maxRetries = 10 (the value used for every
chunk request in Transaction.Commit) calls the request function exactly
ten times in total (one initial attempt plus nine retries), sleeping after
each failure, and then returns the abort error: it fails on the 10th
consecutive failure, not on the 11th. -/
theorem retry_persistent_failure_ten_calls (fn : Nat → Option ErrKind)
    (h : ∀ k, fn k ≠ none) :
    withRetryOnTooManyRequests fn 10 =
      some ⟨10, List.replicate 10 15,
        Except.error "Too many retries... Aborting"⟩ := by
  have hrun := withRetryGo_persistent fn 10 h 11 0 0 [] (by omega) (by omega)
  exact hrun.trans (by rfl)

/-- Witness for retry_persistent_failure_ten_calls at the always-Overload
request function. -/
theorem retry_persistent_failure_ten_calls_witness :
    withRetryOnTooManyRequests (fun _ => some ErrKind.overload) 10 =
      some ⟨10, List.replicate 10 15,
        Except.error "Too many retries... Aborting"⟩ :=
  retry_persistent_failure_ten_calls (fun _ => some ErrKind.overload)
    (fun _ hk => Option.noConfusion hk)

/-- C2 fails as stated: with the always-Overload request function and
maxRetries = 10, the helper calls the request function 10 times in total
before returning the abort error, not 11. -/
theorem retry_not_eleven_calls_cex :
    (withRetryOnTooManyRequests (fun _ => some ErrKind.overload) 10).map
        RetryOutcome.calls = some 10 ∧
    (withRetryOnTooManyRequests (fun _ => some ErrKind.overload) 10).map
        RetryOutcome.calls ≠ some 11 := by
  exact ⟨rfl, by decide⟩

/-- C3: the backoff slept by the code is NOT 1.01 ^ trials times 15
seconds.  The Go expression truncates math.Pow(1.01, trials) to an int
before multiplying, so at trials = 1 the code sleeps
backoffSeconds 1 = 15 seconds while the claimed formula gives
(101/100) ^ 1 * 15 = 15.15 seconds; for every trials the code can reach
(0 to 9) the slept delay is the constant 15 seconds, as the sleep list of
a persistently failing run shows. -/
theorem backoff_constant_not_exponential :
    backoffSeconds 1 = 15 ∧
    ((101 : ℚ) / 100) ^ 1 * 15 ≠ 15 ∧
    (List.range 10).map backoffSeconds = List.replicate 10 15 ∧
    (withRetryOnTooManyRequests (fun _ => some ErrKind.network) 10).map
        RetryOutcome.sleeps = some (List.replicate 10 15) := by
  exact ⟨rfl, by norm_num, by decide, by decide⟩

/-- C4: the retry helper never inspects the error kind.  A persistently
failing request function whose error is a parse error (neither Overload
nor a transient network error) is retried exactly like an Overload: the
function is called 10 times and the generic abort error is returned
instead of the original error being surfaced without retry. -/
theorem retry_ignores_error_kind :
    (withRetryOnTooManyRequests (fun _ => some ErrKind.parse) 10 =
      some ⟨10, List.replicate 10 15,
        Except.error "Too many retries... Aborting"⟩) ∧
    ErrKind.parse ≠ ErrKind.overload ∧ ErrKind.parse ≠ ErrKind.network := by
  exact ⟨rfl, by decide, by decide⟩

/-- C1: after a successful schema upload, the trace of Commit is the
phase A prefix (schema upload, Bulk computation, the dispatch of every
relation-removal chunk and every asset-upsert chunk, then a full drain of
their futures), optionally followed by the phase B part (the dispatch of
every asset-removal chunk and every relation-upsert chunk, then a second
full drain); phase A dispatches only relation-removal and asset-upsert
chunks and phase B dispatches only asset-removal and relation-upsert
chunks, so every phase A future is drained before any phase B chunk is
dispatched. -/
theorem commit_two_phase_order (cgt : Transaction) (env : CommitEnv)
    (h : env.updateSchemaErr cgt.newGraph.ExtractSchema = none) :
    ((cgt.Commit env).2.2 = commitTraceA cgt ∨
      (cgt.Commit env).2.2 = commitTraceA cgt ++ commitTraceB cgt) ∧
    commitTraceA cgt =
      [CommitEvent.updateSchema, CommitEvent.computeBulk] ++
        phaseAEvents (nRelationRemovalChunks cgt) (nAssetUpsertChunks cgt) ++
        [CommitEvent.drain] ∧
    commitTraceB cgt =
      phaseBEvents (nAssetRemovalChunks cgt) (nRelationUpsertChunks cgt) ++
        [CommitEvent.drain] ∧
    (∀ i, i < nRelationRemovalChunks cgt →
      CommitEvent.dispatch ChunkKind.relationRemoval i ∈ commitTraceA cgt) ∧
    (∀ i, i < nAssetUpsertChunks cgt →
      CommitEvent.dispatch ChunkKind.assetUpsert i ∈ commitTraceA cgt) ∧
    (∀ k i, CommitEvent.dispatch k i ∈ commitTraceA cgt →
      k = ChunkKind.relationRemoval ∨ k = ChunkKind.assetUpsert) ∧
    (∀ k i, CommitEvent.dispatch k i ∈ commitTraceB cgt →
      k = ChunkKind.assetRemoval ∨ k = ChunkKind.relationUpsert) := by
  refine ⟨?_, rfl, rfl, ?_, ?_, ?_, ?_⟩
  · unfold Transaction.Commit
    rw [h]
    rcases hA : phaseAErrors cgt env with _ | ⟨e1, es1⟩
    · rcases hB : phaseBErrors cgt env with _ | ⟨e2, es2⟩ <;> simp
    · simp
  · intro i hi
    unfold commitTraceA
    refine List.mem_append.mpr (Or.inl (List.mem_append.mpr (Or.inr ?_)))
    unfold phaseAEvents
    exact List.mem_append.mpr
      (Or.inl (List.mem_map.mpr ⟨i, List.mem_range.mpr hi, rfl⟩))
  · intro i hi
    unfold commitTraceA
    refine List.mem_append.mpr (Or.inl (List.mem_append.mpr (Or.inr ?_)))
    unfold phaseAEvents
    exact List.mem_append.mpr
      (Or.inr (List.mem_map.mpr ⟨i, List.mem_range.mpr hi, rfl⟩))
  · intro k i hk
    unfold commitTraceA at hk
    rcases List.mem_append.mp hk with h2 | h2
    · rcases List.mem_append.mp h2 with h3 | h3
      · simp at h3
      · unfold phaseAEvents at h3
        rcases List.mem_append.mp h3 with h4 | h4
        · rcases List.mem_map.mp h4 with ⟨j, _, hEq⟩
          injection hEq with hkind hidx
          exact Or.inl hkind.symm
        · rcases List.mem_map.mp h4 with ⟨j, _, hEq⟩
          injection hEq with hkind hidx
          exact Or.inr hkind.symm
    · simp at h2
  · intro k i hk
    unfold commitTraceB at hk
    rcases List.mem_append.mp hk with h3 | h3
    · unfold phaseBEvents at h3
      rcases List.mem_append.mp h3 with h4 | h4
      · rcases List.mem_map.mp h4 with ⟨j, _, hEq⟩
        injection hEq with hkind hidx
        exact Or.inl hkind.symm
      · rcases List.mem_map.mp h4 with ⟨j, _, hEq⟩
        injection hEq with hkind hidx
        exact Or.inr hkind.symm
    · simp at h3

/-- Witness for commit_two_phase_order at a concrete transaction whose
schema upload succeeds. -/
theorem commit_two_phase_order_witness :
    (sampleTx.Commit envOk).2.2 = commitTraceA sampleTx ∨
    (sampleTx.Commit envOk).2.2 = commitTraceA sampleTx ++ commitTraceB sampleTx :=
  (commit_two_phase_order sampleTx envOk rfl).1

/-- C5: when the schema upload fails, Commit returns the schema error at
once: the trace records only the schema upload, so the Bulk has not been
computed and no chunk has been dispatched, and the transaction state,
including currentGraph and newGraph, is returned unchanged. -/
theorem commit_schema_upload_failure (cgt : Transaction) (env : CommitEnv)
    (e : String) (h : env.updateSchemaErr cgt.newGraph.ExtractSchema = some e) :
    cgt.Commit env =
      (Except.error ("Unable to update the schema of the graph: " ++ e), cgt,
        [CommitEvent.updateSchema]) ∧
    CommitEvent.computeBulk ∉ (cgt.Commit env).2.2 ∧
    (∀ k i, CommitEvent.dispatch k i ∉ (cgt.Commit env).2.2) := by
  have hc : cgt.Commit env =
      (Except.error ("Unable to update the schema of the graph: " ++ e), cgt,
        [CommitEvent.updateSchema]) := by
    unfold Transaction.Commit
    rw [h]
  refine ⟨hc, ?_, ?_⟩
  · rw [hc]
    simp
  · intro k i
    rw [hc]
    simp

/-- Witness for commit_schema_upload_failure at a concrete transaction
and a failing schema upload. -/
theorem commit_schema_upload_failure_witness :
    sampleTx.Commit envSchemaFail =
      (Except.error ("Unable to update the schema of the graph: " ++ "boom"),
        sampleTx, [CommitEvent.updateSchema]) :=
  (commit_schema_upload_failure sampleTx envSchemaFail "boom" rfl).1

/-- C6: when Commit succeeds, the returned graph is the previous newGraph
of the transaction, the internal newGraph is reset to a fresh empty graph
and currentGraph is untouched. -/
theorem commit_success_returns_new_graph (cgt : Transaction) (env : CommitEnv)
    (g : Graph) (cgt2 : Transaction) (tr : List CommitEvent)
    (h : cgt.Commit env = (Except.ok g, cgt2, tr)) :
    g = cgt.newGraph ∧ cgt2.newGraph = NewGraph ∧
    cgt2.currentGraph = cgt.currentGraph := by
  unfold Transaction.Commit at h
  rcases hs : env.updateSchemaErr cgt.newGraph.ExtractSchema with _ | e0 <;>
    rw [hs] at h
  · rcases hA : phaseAErrors cgt env with _ | ⟨e1, es1⟩ <;> rw [hA] at h
    · rcases hB : phaseBErrors cgt env with _ | ⟨e2, es2⟩ <;> rw [hB] at h
      · simp only [Prod.mk.injEq, Except.ok.injEq] at h
        obtain ⟨h1, h2, h3⟩ := h
        subst h2
        exact ⟨h1.symm, rfl, rfl⟩
      · simp at h
    · simp at h
  · simp at h

/-- Witness for commit_success_returns_new_graph on a concrete
successful commit. -/
theorem commit_success_returns_new_graph_witness :
    sampleGraph = sampleTx.newGraph ∧
    (⟨NewGraph, NewGraph, 4, 1000⟩ : Transaction).newGraph = NewGraph ∧
    (⟨NewGraph, NewGraph, 4, 1000⟩ : Transaction).currentGraph =
      sampleTx.currentGraph :=
  commit_success_returns_new_graph sampleTx envOk sampleGraph
    ⟨NewGraph, NewGraph, 4, 1000⟩
    (commitTraceA sampleTx ++ commitTraceB sampleTx) rfl

/-- C7: whenever Commit returns an error (failed schema upload or a
failed chunk in either phase), the transaction is returned unchanged: in
particular newGraph and currentGraph keep their previous values, so the
same state can be committed again. -/
theorem commit_error_keeps_graphs (cgt : Transaction) (env : CommitEnv)
    (e : String) (cgt2 : Transaction) (tr : List CommitEvent)
    (h : cgt.Commit env = (Except.error e, cgt2, tr)) :
    cgt2.newGraph = cgt.newGraph ∧ cgt2.currentGraph = cgt.currentGraph := by
  unfold Transaction.Commit at h
  rcases hs : env.updateSchemaErr cgt.newGraph.ExtractSchema with _ | e0 <;>
    rw [hs] at h
  · rcases hA : phaseAErrors cgt env with _ | ⟨e1, es1⟩ <;> rw [hA] at h
    · rcases hB : phaseBErrors cgt env with _ | ⟨e2, es2⟩ <;> rw [hB] at h
      · simp at h
      · simp only [Prod.mk.injEq, Except.error.injEq] at h
        obtain ⟨h1, h2, h3⟩ := h
        subst h2
        exact ⟨rfl, rfl⟩
    · simp only [Prod.mk.injEq, Except.error.injEq] at h
      obtain ⟨h1, h2, h3⟩ := h
      subst h2
      exact ⟨rfl, rfl⟩
  · simp only [Prod.mk.injEq, Except.error.injEq] at h
    obtain ⟨h1, h2, h3⟩ := h
    subst h2
    exact ⟨rfl, rfl⟩

/-- Witness for commit_error_keeps_graphs on a concrete commit whose
only asset-upsert chunk fails in phase A. -/
theorem commit_error_keeps_graphs_witness :
    sampleTx.newGraph = sampleTx.newGraph ∧
    sampleTx.currentGraph = sampleTx.currentGraph :=
  commit_error_keeps_graphs sampleTx envChunkFail
    ("Unable to upsert the asset: " ++ "too many requests") sampleTx
    (commitTraceA sampleTx) rfl

/-- C8: the query gate capacity passed to the server by listen equals the
configured concurrency when it is set, and 32 when the configuration
leaves it unset (read as zero). -/
theorem listen_concurrency_gate (c : Int) :
    (c = 0 → listenConcurrency c = 32) ∧
    (c ≠ 0 → listenConcurrency c = c) := by
  constructor <;> intro hc <;> simp [listenConcurrency, hc]

/-- Witness for listen_concurrency_gate at the unset value 0 and the set
value 7. -/
theorem listen_concurrency_gate_witness :
    listenConcurrency 0 = 32 ∧ listenConcurrency 7 = 7 :=
  ⟨(listen_concurrency_gate 0).1 rfl, (listen_concurrency_gate 7).2 (by decide)⟩

/-- Counting with a foldl that increments once per element yields the
list length. -/
theorem foldl_count_eq_length (l : List α) :
    ∀ n : Nat, l.foldl (fun m _ => m + 1) n = n + l.length := by
  induction l with
  | nil => intro n; simp
  | cons a l ih =>
    intro n
    rw [List.foldl_cons, ih]
    simp
    omega

/-- C9 (amended): the query CLI command runs under a 30 second deadline,
prints every cursor row, and prints a summary whose count is the number
of rows read and whose millisecond figure is the sum of the parsing and
execution times truncated to whole microseconds, divided by 1000. -/
theorem query_cli_output (rows : List (List String)) (stats : QueryStatistics) :
    (queryFunc rows stats).timeoutSeconds = 30 ∧
    (queryFunc rows stats).printedRows = rows ∧
    (queryFunc rows stats).resultsCount = rows.length ∧
    (queryFunc rows stats).summaryMs =
      (durationMicroseconds (stats.parsing + stats.execution) : ℚ) / 1000 := by
  refine ⟨rfl, rfl, ?_, rfl⟩
  show rows.foldl (fun m _ => m + 1) 0 = rows.length
  rw [foldl_count_eq_length rows 0]
  omega

/-- C9 fails as stated: with a parsing time of 500 nanoseconds and zero
execution time the code prints 0 milliseconds, while the sum of the
parsing and execution times in milliseconds is 0.0005. -/
theorem query_summary_truncates_cex :
    (queryFunc [] ⟨500, 0⟩).summaryMs = 0 ∧
    ((500 : ℚ) + 0) / 1000000 ≠ 0 ∧
    (queryFunc [] ⟨500, 0⟩).summaryMs ≠ ((500 : ℚ) + 0) / 1000000 := by
  refine ⟨?_, by norm_num, ?_⟩
  · norm_num [queryFunc, durationMicroseconds]
  · norm_num [queryFunc, durationMicroseconds]

/-- C10: postQuery always sends include_data_source set to true; it
returns the decoded result exactly when the response status is 200; and
for status 400 or 500 it throws the error message built from the
response body followed by the status code in parentheses, so the message
contains both. -/
theorem post_query_status_contract (query : String) (status : Nat)
    (body : String) :
    (postQueryBody query).include_data_source = true ∧
    ((∃ r, postQuery status body = Except.ok r) ↔ status = 200) ∧
    ((status = 400 ∨ status = 500) →
      postQuery status body =
        Except.error (body ++ (" (" ++ (toString status ++ ")")))) := by
  refine ⟨rfl, ?_, ?_⟩
  · constructor
    · rintro ⟨r, hr⟩
      by_cases h200 : status = 200
      · exact h200
      · exfalso
        cases hv : postQueryValidateStatus status <;>
          simp [postQuery, hv, h200] at hr
    · rintro rfl
      exact ⟨body, rfl⟩
  · rintro (rfl | rfl) <;> rfl

/-- Witness for post_query_status_contract at a 400 parse-error
response. -/
theorem post_query_status_contract_witness :
    postQuery 400 "parse error" =
      Except.error ("parse error" ++ (" (" ++ (toString 400 ++ ")"))) :=
  (post_query_status_contract "MATCH (n) RETURN" 400 "parse error").2.2
    (Or.inl rfl)
